import Mathlib

/-!
Shallow embedding of `src/learning_method.py` (UltraDeep's optimizer module).

Each source function (`sgd`, `sgdmomentum`, `adagrad`, `adadelta`, `adam`)
receives a cost expression and a list of parameters, computes
`gradients = T.grad(cost, params)` (external to this module), allocates
zero-initialised per-parameter shared state, and returns a list of Theano
`(shared variable, new value)` update pairs; Theano applies all pairs of one
`step` simultaneously, every right-hand side evaluated against the pre-step
values of the shared variables.

The embedding works over `ℝ` (the source computes in float32).  Gradients and
the current values of the per-parameter shared state are explicit lists
aligned with `params`; a `Target` names each shared variable by the position
of the parameter it belongs to.  Each loop of the source becomes `updatesFor`
applied to the loop's body.
-/

namespace LearningMethod

/-- The Theano shared variables that the update lists of
`src/learning_method.py` assign to, named by the position `i` of the
parameter they were allocated for.  `tCounter` is Adam's single global
counter `t`, shared across all parameters. -/
inductive Target : Type
  | param (i : ℕ)
  | velocity (i : ℕ)
  | gsum (i : ℕ)
  | accuGradient (i : ℕ)
  | accuDelta (i : ℕ)
  | mPrev (i : ℕ)
  | vPrev (i : ℕ)
  | tCounter
  deriving DecidableEq

/-- The value the update list assigns to the shared variable `tgt`
(the first pair whose target is `tgt`), `none` when the list leaves it
unchanged. -/
def assigned : List (Target × ℝ) → Target → Option ℝ
  | [], _ => none
  | (t, x) :: rest, tgt => if t = tgt then some x else assigned rest tgt

/-- The update list a source loop `for ... in zip(...)` builds: the body's
update pairs for each zipped element in order, the counter `i` naming the
per-parameter shared variables by position. -/
def updatesFor {α : Type} (body : ℕ → α → List (Target × ℝ)) :
    ℕ → List α → List (Target × ℝ)
  | _, [] => []
  | i, z :: rest => body i z ++ updatesFor body (i + 1) rest

noncomputable section

/-- Loop body of `sgd`: `updates.append((p, p - lr * g))`. -/
def sgdBody (lr : ℝ) (i : ℕ) (pg : ℝ × ℝ) : List (Target × ℝ) :=
  [(Target.param i, pg.1 - lr * pg.2)]

/-- `sgd(cost, params, lr)`: plain stochastic gradient descent.  The source
zips `params` with the externally computed `gradients` and appends one update
per parameter; it allocates no shared state, so the update list depends only
on the current parameter values, the gradients and `lr`. -/
def sgd (params gradients : List ℝ) (lr : ℝ) : List (Target × ℝ) :=
  updatesFor (sgdBody lr) 0 (params.zip gradients)

/-- Failure of the `assert 0 <= momentum < 1` guarding `sgdmomentum` — the
spec's `InvalidHyperparameterError`, raised at construction. -/
inductive OptError : Type
  | invalidHyperparameter

/-- Loop body of `sgdmomentum`: `new_velocity = momentum * velocity - lr *
gradient`; the loop appends `(velocity, new_velocity)` and
`(param, param + new_velocity)`. -/
def sgdmomentumBody (lr momentum : ℝ) (i : ℕ) (z : ℝ × ℝ × ℝ) :
    List (Target × ℝ) :=
  let param := z.1
  let gradient := z.2.1
  let velocity := z.2.2
  let new_velocity := momentum * velocity - lr * gradient
  [(Target.velocity i, new_velocity), (Target.param i, param + new_velocity)]

/-- The update list `sgdmomentum` builds once its assert has passed;
`velocities` holds the current values of the per-parameter `velocity` shared
variables (allocated zero-filled at construction). -/
def sgdmomentumUpdates (params gradients velocities : List ℝ)
    (lr momentum : ℝ) : List (Target × ℝ) :=
  updatesFor (sgdmomentumBody lr momentum) 0
    (params.zip (gradients.zip velocities))

/-- `sgdmomentum(cost, params, lr, momentum)`: the function first runs
`assert 0 <= momentum < 1` (its only hyperparameter check, modelled as the
error branch) and then builds the update list. -/
def sgdmomentum (params gradients velocities : List ℝ) (lr momentum : ℝ) :
    Except OptError (List (Target × ℝ)) :=
  if 0 ≤ momentum ∧ momentum < 1 then
    Except.ok (sgdmomentumUpdates params gradients velocities lr momentum)
  else
    Except.error OptError.invalidHyperparameter

/-- Loop body of `adagrad`: `new_gsum = gsum + gradient ** 2.`, then
`(gsum, new_gsum)` and `(param, param - lr * gradient /
(T.sqrt(new_gsum + epsilon)))` are appended. -/
def adagradBody (lr epsilon : ℝ) (i : ℕ) (z : ℝ × ℝ × ℝ) :
    List (Target × ℝ) :=
  let param := z.1
  let gradient := z.2.1
  let gsum := z.2.2
  let new_gsum := gsum + gradient ^ 2
  [(Target.gsum i, new_gsum),
   (Target.param i, param - lr * gradient / Real.sqrt (new_gsum + epsilon))]

/-- `adagrad(cost, params, lr, epsilon)`; `gsums` holds the current values of
the per-parameter `gsum` shared variables (allocated zero-filled at
construction).  No hyperparameter is validated. -/
def adagrad (params gradients gsums : List ℝ) (lr epsilon : ℝ) :
    List (Target × ℝ) :=
  updatesFor (adagradBody lr epsilon) 0 (params.zip (gradients.zip gsums))

/-- Loop body of `adadelta`: the three updates of one parameter, in source
order — `new_accu_gradient` from the old accumulators, `delta_x` from the old
`accu_delta` and the new `accu_gradient`, `new_accu_delta` from `delta_x`. -/
def adadeltaBody (rho epsilon : ℝ) (i : ℕ) (z : ℝ × ℝ × ℝ × ℝ) :
    List (Target × ℝ) :=
  let param := z.1
  let gradient := z.2.1
  let accu_gradient := z.2.2.1
  let accu_delta := z.2.2.2
  let new_accu_gradient := rho * accu_gradient + (1 - rho) * gradient ^ 2
  let delta_x :=
    - Real.sqrt ((accu_delta + epsilon) / (new_accu_gradient + epsilon))
      * gradient
  let new_accu_delta := rho * accu_delta + (1 - rho) * delta_x ^ 2
  [(Target.accuGradient i, new_accu_gradient),
   (Target.accuDelta i, new_accu_delta),
   (Target.param i, param + delta_x)]

/-- `adadelta(cost, params, rho, epsilon)`; `accu_gradients` and `accu_deltas`
hold the current values of the per-parameter accumulators (allocated
zero-filled at construction).  No hyperparameter is validated. -/
def adadelta (params gradients accu_gradients accu_deltas : List ℝ)
    (rho epsilon : ℝ) : List (Target × ℝ) :=
  updatesFor (adadeltaBody rho epsilon) 0
    (params.zip (gradients.zip (accu_gradients.zip accu_deltas)))

/-- Loop body of `adam`: `m`, `v`, `m_hat`, `v_hat`, `theta` exactly as the
source computes them; `t` is the one global counter, read (not written) by
every iteration, so the bias corrections `beta1 ** t`, `beta2 ** t` use the
same pre-increment value for every parameter. -/
def adamBody (t lr beta1 beta2 epsilon : ℝ) (i : ℕ) (z : ℝ × ℝ × ℝ × ℝ) :
    List (Target × ℝ) :=
  let param := z.1
  let gradient := z.2.1
  let m_prev := z.2.2.1
  let v_prev := z.2.2.2
  let m := beta1 * m_prev + (1 - beta1) * gradient
  let v := beta2 * v_prev + (1 - beta2) * gradient ^ 2
  let m_hat := m / (1 - beta1 ^ t)
  let v_hat := v / (1 - beta2 ^ t)
  let theta := param - (lr * m_hat) / (Real.sqrt v_hat + epsilon)
  [(Target.mPrev i, m), (Target.vPrev i, v), (Target.param i, theta)]

/-- `adam(cost, params, lr, beta1, beta2, epsilon)`: the per-parameter loop
followed by the single `updates.append((t, t + 1.))` after the loop; `t` is
the current value of the global counter (`theano.shared(1.0)` at
construction), `ms` and `vs` the current values of the per-parameter `m_prev`
and `v_prev` shared variables (allocated zero-filled at construction).  No
hyperparameter is validated. -/
def adam (params gradients ms vs : List ℝ) (t lr beta1 beta2 epsilon : ℝ) :
    List (Target × ℝ) :=
  updatesFor (adamBody t lr beta1 beta2 epsilon) 0
    (params.zip (gradients.zip (ms.zip vs)))
    ++ [(Target.tCounter, t + 1)]

/-- The value of Adam's global counter after `n` `step` calls: the source
creates `t = theano.shared(1.0)` at construction, and each call applies the
update its list assigns to `tCounter` (no other shared state feeds into that
update, so the remaining state arguments are held fixed here). -/
def adamTAfter (params gradients ms vs : List ℝ)
    (lr beta1 beta2 epsilon : ℝ) : ℕ → ℝ
  | 0 => 1
  | n + 1 =>
    let t := adamTAfter params gradients ms vs lr beta1 beta2 epsilon n
    (assigned (adam params gradients ms vs t lr beta1 beta2 epsilon)
      Target.tCounter).getD t

/-- Parameter value and `gsum` of a single-parameter Adagrad after `n`
successive steps with the fixed gradient `g`: `gsum` starts at the zero the
source allocates, and each step applies the updates `adagrad` assigns to the
two shared variables. -/
def adagradIter (p0 g lr epsilon : ℝ) : ℕ → ℝ × ℝ
  | 0 => (p0, 0)
  | n + 1 =>
    let s := adagradIter p0 g lr epsilon n
    ((assigned (adagrad [s.1] [g] [s.2] lr epsilon) (Target.param 0)).getD s.1,
     (assigned (adagrad [s.1] [g] [s.2] lr epsilon) (Target.gsum 0)).getD s.2)

/-- The spec's `ShapeMismatchError`, raised at the start of `step`. -/
inductive StepError : Type
  | shapeMismatch

/-- A parameter or gradient tensor: its shape and its elements. -/
structure Tensor : Type where
  shape : List ℕ
  data : List ℝ

/-- Modelled from the spec: the optimizer façade's `step(gradients)` entry
point with its shape validation is absent from the source
(`learning_method.py` computes `gradients = T.grad(cost, params)` itself, so
no gradient list is ever passed in and no shape check exists).  Following the
spec: `step` first checks that the gradient count equals the parameter count
and that every gradient's shape equals its parameter's shape; on failure it
raises `ShapeMismatchError` before touching any state — here it returns the
error together with the untouched parameter list — and otherwise it applies
the gradient-descent update to every parameter elementwise. -/
def step (lr : ℝ) (params gradients : List Tensor) :
    Except StepError Unit × List Tensor :=
  if gradients.length = params.length
      ∧ ∀ pg ∈ params.zip gradients, pg.1.shape = pg.2.shape then
    (Except.ok (), (params.zip gradients).map fun pg =>
      { shape := pg.1.shape,
        data := (pg.1.data.zip pg.2.data).map fun dg => dg.1 - lr * dg.2 })
  else
    (Except.error StepError.shapeMismatch, params)

end

theorem assigned_append_left {l₁ l₂ : List (Target × ℝ)} {tgt : Target} {v : ℝ}
    (h : assigned l₁ tgt = some v) : assigned (l₁ ++ l₂) tgt = some v := by
  induction l₁ with
  | nil => simp [assigned] at h
  | cons a l ih =>
      obtain ⟨t, x⟩ := a
      by_cases ht : t = tgt
      · simp [assigned, ht] at h ⊢; exact h
      · simp [assigned, ht] at h ⊢; exact ih h

theorem assigned_append_right {l₁ : List (Target × ℝ)} {tgt : Target}
    (h : assigned l₁ tgt = none) (l₂ : List (Target × ℝ)) :
    assigned (l₁ ++ l₂) tgt = assigned l₂ tgt := by
  induction l₁ with
  | nil => simp
  | cons a l ih =>
      obtain ⟨t, x⟩ := a
      by_cases ht : t = tgt
      · simp [assigned, ht] at h
      · simp [assigned, ht] at h ⊢; exact ih h

theorem assigned_updatesFor_none {α : Type} {body : ℕ → α → List (Target × ℝ)}
    {tgt : Target} (zs : List α) (k : ℕ)
    (h : ∀ j z, k ≤ j → assigned (body j z) tgt = none) :
    assigned (updatesFor body k zs) tgt = none := by
  induction zs generalizing k with
  | nil => rfl
  | cons z rest ih =>
      rw [updatesFor, assigned_append_right (h k z le_rfl)]
      exact ih (k + 1) fun j z hj => h j z (le_trans (Nat.le_succ k) hj)

/-- Reading the update list a loop builds at the shared variable of
parameter `k + i`: only the body of iteration `k + i` can assign to it. -/
theorem assigned_updatesFor {α : Type} {body : ℕ → α → List (Target × ℝ)}
    {tgt : Target} (zs : List α) (k i : ℕ) (hi : i < zs.length)
    (hmiss : ∀ j z, j ≠ k + i → assigned (body j z) tgt = none) :
    assigned (updatesFor body k zs) tgt = assigned (body (k + i) zs[i]) tgt := by
  induction zs generalizing k i with
  | nil => exact absurd hi (Nat.not_lt_zero i)
  | cons z rest ih =>
      cases i with
      | zero =>
          rw [updatesFor]
          cases hz : assigned (body k z) tgt with
          | some v =>
              rw [assigned_append_left hz]
              simpa using hz.symm
          | none =>
              rw [assigned_append_right hz,
                assigned_updatesFor_none rest (k + 1)
                  (fun j z hj => hmiss j z (by omega))]
              simpa using hz.symm
      | succ i' =>
          rw [updatesFor, assigned_append_right (hmiss k z (by omega))]
          have h' := ih (k + 1) i' (by simpa using Nat.lt_of_succ_lt_succ hi)
            (fun j z hj => hmiss j z (by omega))
          rw [h']
          have harith : k + 1 + i' = k + (i' + 1) := by omega
          simp [harith]

/-- Every pair of the list a loop builds comes from one iteration's body. -/
theorem mem_updatesFor {α : Type} {body : ℕ → α → List (Target × ℝ)}
    {u : Target × ℝ} (zs : List α) (k : ℕ)
    (hu : u ∈ updatesFor body k zs) : ∃ j z, u ∈ body j z := by
  induction zs generalizing k with
  | nil => cases hu
  | cons z rest ih =>
      rw [updatesFor, List.mem_append] at hu
      rcases hu with hu | hu
      · exact ⟨k, z, hu⟩
      · exact ih (k + 1) hu

theorem assigned_sgd_param (params gradients : List ℝ) (lr : ℝ) (i : ℕ)
    (hp : i < params.length) (hg : i < gradients.length) :
    assigned (sgd params gradients lr) (Target.param i) =
      some (params[i] - lr * gradients[i]) := by
  have hz : i < (params.zip gradients).length := by
    rw [List.length_zip]; omega
  rw [sgd, assigned_updatesFor (params.zip gradients) 0 i hz
    (fun j z hj => by simp [sgdBody, assigned]; omega)]
  simp [sgdBody, assigned, List.getElem_zip]

theorem assigned_sgdmomentum_velocity (params gradients velocities : List ℝ)
    (lr momentum : ℝ) (i : ℕ) (hp : i < params.length)
    (hg : i < gradients.length) (hv : i < velocities.length) :
    assigned (sgdmomentumUpdates params gradients velocities lr momentum)
      (Target.velocity i) =
      some (momentum * velocities[i] - lr * gradients[i]) := by
  have hz : i < (params.zip (gradients.zip velocities)).length := by
    simp [List.length_zip]; omega
  rw [sgdmomentumUpdates, assigned_updatesFor _ 0 i hz
    (fun j z hj => by simp [sgdmomentumBody, assigned]; omega)]
  simp [sgdmomentumBody, assigned, List.getElem_zip]

theorem assigned_sgdmomentum_param (params gradients velocities : List ℝ)
    (lr momentum : ℝ) (i : ℕ) (hp : i < params.length)
    (hg : i < gradients.length) (hv : i < velocities.length) :
    assigned (sgdmomentumUpdates params gradients velocities lr momentum)
      (Target.param i) =
      some (params[i] + (momentum * velocities[i] - lr * gradients[i])) := by
  have hz : i < (params.zip (gradients.zip velocities)).length := by
    simp [List.length_zip]; omega
  rw [sgdmomentumUpdates, assigned_updatesFor _ 0 i hz
    (fun j z hj => by simp [sgdmomentumBody, assigned]; omega)]
  simp [sgdmomentumBody, assigned, List.getElem_zip]

theorem assigned_adagrad_gsum (params gradients gsums : List ℝ)
    (lr epsilon : ℝ) (i : ℕ) (hp : i < params.length)
    (hg : i < gradients.length) (hs : i < gsums.length) :
    assigned (adagrad params gradients gsums lr epsilon) (Target.gsum i) =
      some (gsums[i] + gradients[i] ^ 2) := by
  have hz : i < (params.zip (gradients.zip gsums)).length := by
    simp [List.length_zip]; omega
  rw [adagrad, assigned_updatesFor _ 0 i hz
    (fun j z hj => by simp [adagradBody, assigned]; omega)]
  simp [adagradBody, assigned, List.getElem_zip]

theorem assigned_adagrad_param (params gradients gsums : List ℝ)
    (lr epsilon : ℝ) (i : ℕ) (hp : i < params.length)
    (hg : i < gradients.length) (hs : i < gsums.length) :
    assigned (adagrad params gradients gsums lr epsilon) (Target.param i) =
      some (params[i] -
        lr * gradients[i] / Real.sqrt (gsums[i] + gradients[i] ^ 2 + epsilon)) := by
  have hz : i < (params.zip (gradients.zip gsums)).length := by
    simp [List.length_zip]; omega
  rw [adagrad, assigned_updatesFor _ 0 i hz
    (fun j z hj => by simp [adagradBody, assigned]; omega)]
  simp [adagradBody, assigned, List.getElem_zip]

theorem assigned_adadelta_accuGradient
    (params gradients accu_gradients accu_deltas : List ℝ)
    (rho epsilon : ℝ) (i : ℕ) (hp : i < params.length)
    (hg : i < gradients.length) (hag : i < accu_gradients.length)
    (had : i < accu_deltas.length) :
    assigned (adadelta params gradients accu_gradients accu_deltas rho epsilon)
      (Target.accuGradient i) =
      some (rho * accu_gradients[i] + (1 - rho) * gradients[i] ^ 2) := by
  have hz : i <
      (params.zip (gradients.zip (accu_gradients.zip accu_deltas))).length := by
    simp [List.length_zip]; omega
  rw [adadelta, assigned_updatesFor _ 0 i hz
    (fun j z hj => by simp [adadeltaBody, assigned]; omega)]
  simp [adadeltaBody, assigned, List.getElem_zip]

theorem assigned_adadelta_accuDelta
    (params gradients accu_gradients accu_deltas : List ℝ)
    (rho epsilon : ℝ) (i : ℕ) (hp : i < params.length)
    (hg : i < gradients.length) (hag : i < accu_gradients.length)
    (had : i < accu_deltas.length) :
    assigned (adadelta params gradients accu_gradients accu_deltas rho epsilon)
      (Target.accuDelta i) =
      some (rho * accu_deltas[i] + (1 - rho) *
        (- Real.sqrt ((accu_deltas[i] + epsilon) /
            (rho * accu_gradients[i] + (1 - rho) * gradients[i] ^ 2 + epsilon))
          * gradients[i]) ^ 2) := by
  have hz : i <
      (params.zip (gradients.zip (accu_gradients.zip accu_deltas))).length := by
    simp [List.length_zip]; omega
  rw [adadelta, assigned_updatesFor _ 0 i hz
    (fun j z hj => by simp [adadeltaBody, assigned]; omega)]
  simp [adadeltaBody, assigned, List.getElem_zip]

theorem assigned_adadelta_param
    (params gradients accu_gradients accu_deltas : List ℝ)
    (rho epsilon : ℝ) (i : ℕ) (hp : i < params.length)
    (hg : i < gradients.length) (hag : i < accu_gradients.length)
    (had : i < accu_deltas.length) :
    assigned (adadelta params gradients accu_gradients accu_deltas rho epsilon)
      (Target.param i) =
      some (params[i] +
        - Real.sqrt ((accu_deltas[i] + epsilon) /
            (rho * accu_gradients[i] + (1 - rho) * gradients[i] ^ 2 + epsilon))
          * gradients[i]) := by
  have hz : i <
      (params.zip (gradients.zip (accu_gradients.zip accu_deltas))).length := by
    simp [List.length_zip]; omega
  rw [adadelta, assigned_updatesFor _ 0 i hz
    (fun j z hj => by simp [adadeltaBody, assigned]; omega)]
  simp [adadeltaBody, assigned, List.getElem_zip]

theorem assigned_adam_mPrev (params gradients ms vs : List ℝ)
    (t lr beta1 beta2 epsilon : ℝ) (i : ℕ) (hp : i < params.length)
    (hg : i < gradients.length) (hm : i < ms.length) (hv : i < vs.length) :
    assigned (adam params gradients ms vs t lr beta1 beta2 epsilon)
      (Target.mPrev i) =
      some (beta1 * ms[i] + (1 - beta1) * gradients[i]) := by
  have hz : i < (params.zip (gradients.zip (ms.zip vs))).length := by
    simp [List.length_zip]; omega
  have hloop : assigned
      (updatesFor (adamBody t lr beta1 beta2 epsilon) 0
        (params.zip (gradients.zip (ms.zip vs)))) (Target.mPrev i) =
      some (beta1 * ms[i] + (1 - beta1) * gradients[i]) := by
    rw [assigned_updatesFor _ 0 i hz
      (fun j z hj => by simp [adamBody, assigned]; omega)]
    simp [adamBody, assigned, List.getElem_zip]
  rw [adam]
  exact assigned_append_left hloop

theorem assigned_adam_vPrev (params gradients ms vs : List ℝ)
    (t lr beta1 beta2 epsilon : ℝ) (i : ℕ) (hp : i < params.length)
    (hg : i < gradients.length) (hm : i < ms.length) (hv : i < vs.length) :
    assigned (adam params gradients ms vs t lr beta1 beta2 epsilon)
      (Target.vPrev i) =
      some (beta2 * vs[i] + (1 - beta2) * gradients[i] ^ 2) := by
  have hz : i < (params.zip (gradients.zip (ms.zip vs))).length := by
    simp [List.length_zip]; omega
  have hloop : assigned
      (updatesFor (adamBody t lr beta1 beta2 epsilon) 0
        (params.zip (gradients.zip (ms.zip vs)))) (Target.vPrev i) =
      some (beta2 * vs[i] + (1 - beta2) * gradients[i] ^ 2) := by
    rw [assigned_updatesFor _ 0 i hz
      (fun j z hj => by simp [adamBody, assigned]; omega)]
    simp [adamBody, assigned, List.getElem_zip]
  rw [adam]
  exact assigned_append_left hloop

theorem assigned_adam_param (params gradients ms vs : List ℝ)
    (t lr beta1 beta2 epsilon : ℝ) (i : ℕ) (hp : i < params.length)
    (hg : i < gradients.length) (hm : i < ms.length) (hv : i < vs.length) :
    assigned (adam params gradients ms vs t lr beta1 beta2 epsilon)
      (Target.param i) =
      some (params[i] -
        lr * ((beta1 * ms[i] + (1 - beta1) * gradients[i]) / (1 - beta1 ^ t)) /
          (Real.sqrt ((beta2 * vs[i] + (1 - beta2) * gradients[i] ^ 2) /
            (1 - beta2 ^ t)) + epsilon)) := by
  have hz : i < (params.zip (gradients.zip (ms.zip vs))).length := by
    simp [List.length_zip]; omega
  have hloop : assigned
      (updatesFor (adamBody t lr beta1 beta2 epsilon) 0
        (params.zip (gradients.zip (ms.zip vs)))) (Target.param i) =
      some (params[i] -
        lr * ((beta1 * ms[i] + (1 - beta1) * gradients[i]) / (1 - beta1 ^ t)) /
          (Real.sqrt ((beta2 * vs[i] + (1 - beta2) * gradients[i] ^ 2) /
            (1 - beta2 ^ t)) + epsilon)) := by
    rw [assigned_updatesFor _ 0 i hz
      (fun j z hj => by simp [adamBody, assigned]; omega)]
    simp [adamBody, assigned, List.getElem_zip]
  rw [adam]
  exact assigned_append_left hloop

theorem assigned_adam_tCounter (params gradients ms vs : List ℝ)
    (t lr beta1 beta2 epsilon : ℝ) :
    assigned (adam params gradients ms vs t lr beta1 beta2 epsilon)
      Target.tCounter = some (t + 1) := by
  rw [adam, assigned_append_right (assigned_updatesFor_none _ 0
    (fun j z _ => by simp [adamBody, assigned]))]
  simp [assigned]

theorem adamTAfter_eq (params gradients ms vs : List ℝ)
    (lr beta1 beta2 epsilon : ℝ) (n : ℕ) :
    adamTAfter params gradients ms vs lr beta1 beta2 epsilon n = 1 + n := by
  induction n with
  | zero => simp [adamTAfter]
  | succ n ih =>
      have hstep : adamTAfter params gradients ms vs lr beta1 beta2 epsilon
          (n + 1) =
          adamTAfter params gradients ms vs lr beta1 beta2 epsilon n + 1 := by
        simp only [adamTAfter, assigned_adam_tCounter, Option.getD_some]
      rw [hstep, ih]
      push_cast
      ring

theorem adagradIter_gsum (p0 g lr epsilon : ℝ) (n : ℕ) :
    (adagradIter p0 g lr epsilon n).2 = n * g ^ 2 := by
  induction n with
  | zero => simp [adagradIter]
  | succ n ih =>
      simp only [adagradIter]
      rw [assigned_adagrad_gsum _ _ _ lr epsilon 0 (by simp) (by simp) (by simp)]
      simp only [Option.getD_some, List.getElem_cons_zero]
      rw [ih]
      push_cast
      ring

theorem adagradIter_param_succ (p0 g lr epsilon : ℝ) (n : ℕ) :
    (adagradIter p0 g lr epsilon (n + 1)).1 =
      (adagradIter p0 g lr epsilon n).1 -
        lr * g / Real.sqrt (((n : ℝ) + 1) * g ^ 2 + epsilon) := by
  simp only [adagradIter]
  rw [assigned_adagrad_param _ _ _ lr epsilon 0 (by simp) (by simp) (by simp)]
  simp only [Option.getD_some, List.getElem_cons_zero]
  rw [adagradIter_gsum]
  rw [show (n : ℝ) * g ^ 2 + g ^ 2 + epsilon = ((n : ℝ) + 1) * g ^ 2 + epsilon
    from by ring]

/-- C1: for every parameter, Adam's step computes `m_new = beta1*m +
(1-beta1)*gradient` and `v_new = beta2*v + (1-beta2)*gradient^2`, divides both
by the bias corrections `1 - beta1^t` and `1 - beta2^t` built from the
pre-increment value of `t` (the same update list assigns `t + 1` to the
counter), and moves the parameter to `param - lr * m_hat / (sqrt(v_hat) +
epsilon)`, with epsilon added outside the square root. -/
theorem adam_step_recurrence (params gradients ms vs : List ℝ)
    (t lr beta1 beta2 epsilon : ℝ) (i : ℕ) (hp : i < params.length)
    (hg : i < gradients.length) (hm : i < ms.length) (hv : i < vs.length) :
    assigned (adam params gradients ms vs t lr beta1 beta2 epsilon)
        (Target.mPrev i) = some (beta1 * ms[i] + (1 - beta1) * gradients[i])
    ∧ assigned (adam params gradients ms vs t lr beta1 beta2 epsilon)
        (Target.vPrev i) =
        some (beta2 * vs[i] + (1 - beta2) * gradients[i] ^ 2)
    ∧ assigned (adam params gradients ms vs t lr beta1 beta2 epsilon)
        (Target.param i) =
        some (params[i] -
          lr * ((beta1 * ms[i] + (1 - beta1) * gradients[i]) / (1 - beta1 ^ t)) /
            (Real.sqrt ((beta2 * vs[i] + (1 - beta2) * gradients[i] ^ 2) /
              (1 - beta2 ^ t)) + epsilon))
    ∧ assigned (adam params gradients ms vs t lr beta1 beta2 epsilon)
        Target.tCounter = some (t + 1) :=
  ⟨assigned_adam_mPrev params gradients ms vs t lr beta1 beta2 epsilon i
      hp hg hm hv,
   assigned_adam_vPrev params gradients ms vs t lr beta1 beta2 epsilon i
      hp hg hm hv,
   assigned_adam_param params gradients ms vs t lr beta1 beta2 epsilon i
      hp hg hm hv,
   assigned_adam_tCounter params gradients ms vs t lr beta1 beta2 epsilon⟩

/-- Witness for C1 at a concrete input. -/
theorem adam_step_recurrence_witness :
    assigned (adam [1] [2] [3] [5] 7 11 13 17 19) (Target.mPrev 0) =
        some (13 * 3 + (1 - 13) * 2)
    ∧ assigned (adam [1] [2] [3] [5] 7 11 13 17 19) (Target.vPrev 0) =
        some (17 * 5 + (1 - 17) * 2 ^ 2)
    ∧ assigned (adam [1] [2] [3] [5] 7 11 13 17 19) (Target.param 0) =
        some (1 - 11 * ((13 * 3 + (1 - 13) * 2) / (1 - 13 ^ (7 : ℝ))) /
          (Real.sqrt ((17 * 5 + (1 - 17) * 2 ^ 2) / (1 - 17 ^ (7 : ℝ))) + 19))
    ∧ assigned (adam [1] [2] [3] [5] 7 11 13 17 19) Target.tCounter =
        some (7 + 1) :=
  adam_step_recurrence [1] [2] [3] [5] 7 11 13 17 19 0
    (by decide) (by decide) (by decide) (by decide)

/-- C5: Adam's counter is one scalar shared by all parameters: each `step`
call's update list assigns to it exactly once (not once per parameter), the
assigned value is `t + 1` for the same pre-increment `t` that every
per-parameter body reads, the counter starts at 1 at construction, equals
`1 + n` after `n` calls, and hence is monotonically non-decreasing and never
0. -/
theorem adam_counter_global (params gradients ms vs : List ℝ)
    (lr beta1 beta2 epsilon : ℝ) :
    (∀ t, assigned (adam params gradients ms vs t lr beta1 beta2 epsilon)
        Target.tCounter = some (t + 1))
    ∧ (∀ t, (adam params gradients ms vs t lr beta1 beta2 epsilon).countP
        (fun u => decide (u.1 = Target.tCounter)) = 1)
    ∧ adamTAfter params gradients ms vs lr beta1 beta2 epsilon 0 = 1
    ∧ (∀ n, adamTAfter params gradients ms vs lr beta1 beta2 epsilon n = 1 + n)
    ∧ (∀ n, adamTAfter params gradients ms vs lr beta1 beta2 epsilon n ≤
        adamTAfter params gradients ms vs lr beta1 beta2 epsilon (n + 1))
    ∧ (∀ n, adamTAfter params gradients ms vs lr beta1 beta2 epsilon n ≠ 0) := by
  refine ⟨fun t => assigned_adam_tCounter params gradients ms vs t lr beta1
      beta2 epsilon,
    fun t => ?_, rfl,
    adamTAfter_eq params gradients ms vs lr beta1 beta2 epsilon,
    fun n => ?_, fun n => ?_⟩
  · rw [adam, List.countP_append]
    have hloop : (updatesFor (adamBody t lr beta1 beta2 epsilon) 0
        (params.zip (gradients.zip (ms.zip vs)))).countP
        (fun u => decide (u.1 = Target.tCounter)) = 0 := by
      rw [List.countP_eq_zero]
      intro u hu
      obtain ⟨j, z, hjz⟩ := mem_updatesFor _ 0 hu
      simp only [adamBody, List.mem_cons, List.not_mem_nil, or_false] at hjz
      rcases hjz with h | h | h <;> subst h <;> simp
    rw [hloop]
    simp [List.countP_cons]
  · rw [adamTAfter_eq, adamTAfter_eq]
    push_cast
    linarith
  · rw [adamTAfter_eq]
    positivity

/-- C6: for every parameter, Adagrad's step accumulates `gsum_new = gsum +
gradient^2` and moves the parameter to `param - lr * gradient /
sqrt(gsum_new + epsilon)`, with epsilon inside the square root next to the
freshly accumulated sum. -/
theorem adagrad_step_recurrence (params gradients gsums : List ℝ)
    (lr epsilon : ℝ) (i : ℕ) (hp : i < params.length)
    (hg : i < gradients.length) (hs : i < gsums.length) :
    assigned (adagrad params gradients gsums lr epsilon) (Target.gsum i) =
        some (gsums[i] + gradients[i] ^ 2)
    ∧ assigned (adagrad params gradients gsums lr epsilon) (Target.param i) =
        some (params[i] - lr * gradients[i] /
          Real.sqrt (gsums[i] + gradients[i] ^ 2 + epsilon)) :=
  ⟨assigned_adagrad_gsum params gradients gsums lr epsilon i hp hg hs,
   assigned_adagrad_param params gradients gsums lr epsilon i hp hg hs⟩

/-- Witness for C6 at a concrete input. -/
theorem adagrad_step_recurrence_witness :
    assigned (adagrad [1] [2] [3] 5 7) (Target.gsum 0) = some (3 + 2 ^ 2)
    ∧ assigned (adagrad [1] [2] [3] 5 7) (Target.param 0) =
        some (1 - 5 * 2 / Real.sqrt (3 + 2 ^ 2 + 7)) :=
  adagrad_step_recurrence [1] [2] [3] 5 7 0 (by decide) (by decide) (by decide)

/-- C2: for every parameter, Adadelta's step computes `accu_gradient_new =
rho*accu_gradient + (1-rho)*gradient^2`, then `delta = -sqrt((accu_delta +
epsilon)/(accu_gradient_new + epsilon)) * gradient` from the old (pre-update)
`accu_delta` and the new `accu_gradient`, then `accu_delta_new =
rho*accu_delta + (1-rho)*delta^2` from that `delta`, and `param_new = param +
delta`: the same-step read-before-write dependency is preserved. -/
theorem adadelta_step_recurrence
    (params gradients accu_gradients accu_deltas : List ℝ)
    (rho epsilon : ℝ) (i : ℕ) (hp : i < params.length)
    (hg : i < gradients.length) (hag : i < accu_gradients.length)
    (had : i < accu_deltas.length) :
    assigned (adadelta params gradients accu_gradients accu_deltas rho epsilon)
        (Target.accuGradient i) =
        some (rho * accu_gradients[i] + (1 - rho) * gradients[i] ^ 2)
    ∧ assigned (adadelta params gradients accu_gradients accu_deltas rho
        epsilon) (Target.accuDelta i) =
        some (rho * accu_deltas[i] + (1 - rho) *
          (- Real.sqrt ((accu_deltas[i] + epsilon) /
              (rho * accu_gradients[i] + (1 - rho) * gradients[i] ^ 2 +
                epsilon)) * gradients[i]) ^ 2)
    ∧ assigned (adadelta params gradients accu_gradients accu_deltas rho
        epsilon) (Target.param i) =
        some (params[i] +
          - Real.sqrt ((accu_deltas[i] + epsilon) /
              (rho * accu_gradients[i] + (1 - rho) * gradients[i] ^ 2 +
                epsilon)) * gradients[i]) :=
  ⟨assigned_adadelta_accuGradient params gradients accu_gradients accu_deltas
      rho epsilon i hp hg hag had,
   assigned_adadelta_accuDelta params gradients accu_gradients accu_deltas
      rho epsilon i hp hg hag had,
   assigned_adadelta_param params gradients accu_gradients accu_deltas
      rho epsilon i hp hg hag had⟩

/-- Witness for C2 at a concrete input. -/
theorem adadelta_step_recurrence_witness :
    assigned (adadelta [1] [2] [3] [5] 7 11) (Target.accuGradient 0) =
        some (7 * 3 + (1 - 7) * 2 ^ 2)
    ∧ assigned (adadelta [1] [2] [3] [5] 7 11) (Target.accuDelta 0) =
        some (7 * 5 + (1 - 7) *
          (- Real.sqrt ((5 + 11) / (7 * 3 + (1 - 7) * 2 ^ 2 + 11)) * 2) ^ 2)
    ∧ assigned (adadelta [1] [2] [3] [5] 7 11) (Target.param 0) =
        some (1 + - Real.sqrt ((5 + 11) / (7 * 3 + (1 - 7) * 2 ^ 2 + 11)) * 2) :=
  adadelta_step_recurrence [1] [2] [3] [5] 7 11 0
    (by decide) (by decide) (by decide) (by decide)

/-- C7: for every parameter, MomentumDescent's step computes `velocity_new =
momentum * velocity - lr * gradient` and `param_new = param + velocity_new`
(the parameter update uses the newly computed velocity, built from the old
one), and GradientDescent's step computes `param_new = param - lr * gradient`
exactly — `sgd` receives no auxiliary state at all, so its update list is a
function of the current parameters, gradients and `lr` alone. -/
theorem momentum_and_sgd_step (params gradients velocities : List ℝ)
    (lr momentum lr2 : ℝ) (i : ℕ) (hp : i < params.length)
    (hg : i < gradients.length) (hv : i < velocities.length) :
    assigned (sgdmomentumUpdates params gradients velocities lr momentum)
        (Target.velocity i) =
        some (momentum * velocities[i] - lr * gradients[i])
    ∧ assigned (sgdmomentumUpdates params gradients velocities lr momentum)
        (Target.param i) =
        some (params[i] + (momentum * velocities[i] - lr * gradients[i]))
    ∧ assigned (sgd params gradients lr2) (Target.param i) =
        some (params[i] - lr2 * gradients[i]) :=
  ⟨assigned_sgdmomentum_velocity params gradients velocities lr momentum i
      hp hg hv,
   assigned_sgdmomentum_param params gradients velocities lr momentum i
      hp hg hv,
   assigned_sgd_param params gradients lr2 i hp hg⟩

/-- Witness for C7 at a concrete input. -/
theorem momentum_and_sgd_step_witness :
    assigned (sgdmomentumUpdates [1] [2] [3] 5 7) (Target.velocity 0) =
        some (7 * 3 - 5 * 2)
    ∧ assigned (sgdmomentumUpdates [1] [2] [3] 5 7) (Target.param 0) =
        some (1 + (7 * 3 - 5 * 2))
    ∧ assigned (sgd [1] [2] 11) (Target.param 0) = some (1 - 11 * 2) :=
  momentum_and_sgd_step [1] [2] [3] 5 7 11 0 (by decide) (by decide) (by decide)

/-- C8: one step with all-zero gradients and all-zero accumulated auxiliary
state leaves every parameter value unchanged for all five algorithms, while
internal state may still be written: the velocity, `gsum` and both Adadelta
accumulators are written back as zero, Adam's `m` and `v` stay zero, and
Adam's counter still advances to `t + 1`. -/
theorem zero_step_noop (ps : List ℝ)
    (lr1 lr2 momentum lr3 eps3 rho eps4 t lr5 beta1 beta2 eps5 : ℝ)
    (i : ℕ) (hi : i < ps.length) :
    assigned (sgd ps (List.replicate ps.length 0) lr1) (Target.param i) =
        some ps[i]
    ∧ assigned (sgdmomentumUpdates ps (List.replicate ps.length 0)
        (List.replicate ps.length 0) lr2 momentum) (Target.param i) =
        some ps[i]
    ∧ assigned (sgdmomentumUpdates ps (List.replicate ps.length 0)
        (List.replicate ps.length 0) lr2 momentum) (Target.velocity i) = some 0
    ∧ assigned (adagrad ps (List.replicate ps.length 0)
        (List.replicate ps.length 0) lr3 eps3) (Target.param i) = some ps[i]
    ∧ assigned (adagrad ps (List.replicate ps.length 0)
        (List.replicate ps.length 0) lr3 eps3) (Target.gsum i) = some 0
    ∧ assigned (adadelta ps (List.replicate ps.length 0)
        (List.replicate ps.length 0) (List.replicate ps.length 0) rho eps4)
        (Target.param i) = some ps[i]
    ∧ assigned (adadelta ps (List.replicate ps.length 0)
        (List.replicate ps.length 0) (List.replicate ps.length 0) rho eps4)
        (Target.accuGradient i) = some 0
    ∧ assigned (adadelta ps (List.replicate ps.length 0)
        (List.replicate ps.length 0) (List.replicate ps.length 0) rho eps4)
        (Target.accuDelta i) = some 0
    ∧ assigned (adam ps (List.replicate ps.length 0)
        (List.replicate ps.length 0) (List.replicate ps.length 0) t lr5 beta1
        beta2 eps5) (Target.param i) = some ps[i]
    ∧ assigned (adam ps (List.replicate ps.length 0)
        (List.replicate ps.length 0) (List.replicate ps.length 0) t lr5 beta1
        beta2 eps5) (Target.mPrev i) = some 0
    ∧ assigned (adam ps (List.replicate ps.length 0)
        (List.replicate ps.length 0) (List.replicate ps.length 0) t lr5 beta1
        beta2 eps5) (Target.vPrev i) = some 0
    ∧ assigned (adam ps (List.replicate ps.length 0)
        (List.replicate ps.length 0) (List.replicate ps.length 0) t lr5 beta1
        beta2 eps5) Target.tCounter = some (t + 1) := by
  have hr : i < (List.replicate ps.length (0 : ℝ)).length := by simpa using hi
  refine ⟨?_, ?_, ?_, ?_, ?_, ?_, ?_, ?_, ?_, ?_, ?_,
    assigned_adam_tCounter _ _ _ _ _ _ _ _ _⟩
  · rw [assigned_sgd_param ps _ lr1 i hi hr]; simp
  · rw [assigned_sgdmomentum_param ps _ _ lr2 momentum i hi hr hr]; simp
  · rw [assigned_sgdmomentum_velocity ps _ _ lr2 momentum i hi hr hr]; simp
  · rw [assigned_adagrad_param ps _ _ lr3 eps3 i hi hr hr]; simp
  · rw [assigned_adagrad_gsum ps _ _ lr3 eps3 i hi hr hr]; simp
  · rw [assigned_adadelta_param ps _ _ _ rho eps4 i hi hr hr hr]; simp
  · rw [assigned_adadelta_accuGradient ps _ _ _ rho eps4 i hi hr hr hr]; simp
  · rw [assigned_adadelta_accuDelta ps _ _ _ rho eps4 i hi hr hr hr]; simp
  · rw [assigned_adam_param ps _ _ _ t lr5 beta1 beta2 eps5 i hi hr hr hr]
    simp
  · rw [assigned_adam_mPrev ps _ _ _ t lr5 beta1 beta2 eps5 i hi hr hr hr]
    simp
  · rw [assigned_adam_vPrev ps _ _ _ t lr5 beta1 beta2 eps5 i hi hr hr hr]
    simp

/-- Witness for C8 at a concrete input. -/
theorem zero_step_noop_witness :
    assigned (sgd [4] [0] 3) (Target.param 0) = some 4
    ∧ assigned (sgdmomentumUpdates [4] [0] [0] 5 7) (Target.param 0) = some 4
    ∧ assigned (sgdmomentumUpdates [4] [0] [0] 5 7) (Target.velocity 0) =
        some 0
    ∧ assigned (adagrad [4] [0] [0] 11 13) (Target.param 0) = some 4
    ∧ assigned (adagrad [4] [0] [0] 11 13) (Target.gsum 0) = some 0
    ∧ assigned (adadelta [4] [0] [0] [0] 17 19) (Target.param 0) = some 4
    ∧ assigned (adadelta [4] [0] [0] [0] 17 19) (Target.accuGradient 0) =
        some 0
    ∧ assigned (adadelta [4] [0] [0] [0] 17 19) (Target.accuDelta 0) = some 0
    ∧ assigned (adam [4] [0] [0] [0] 9 21 23 27 29) (Target.param 0) = some 4
    ∧ assigned (adam [4] [0] [0] [0] 9 21 23 27 29) (Target.mPrev 0) = some 0
    ∧ assigned (adam [4] [0] [0] [0] 9 21 23 27 29) (Target.vPrev 0) = some 0
    ∧ assigned (adam [4] [0] [0] [0] 9 21 23 27 29) Target.tCounter =
        some (9 + 1) :=
  zero_step_noop [4] 3 5 7 11 13 17 19 9 21 23 27 29 0 (by decide)

/-- C9: under Adagrad with a fixed non-zero gradient repeated over successive
steps, `gsum` strictly grows from each step to the next (it never resets), and
the per-coordinate step magnitude `|lr * g / sqrt(gsum_new + epsilon)|` — the
distance the parameter moves — strictly decreases from each step to the
next. -/
theorem adagrad_step_size_decreases (p0 g lr epsilon : ℝ) (n : ℕ)
    (hg : g ≠ 0) (hlr : lr ≠ 0) (heps : 0 < epsilon) :
    (adagradIter p0 g lr epsilon n).2 < (adagradIter p0 g lr epsilon (n + 1)).2
    ∧ |(adagradIter p0 g lr epsilon (n + 2)).1 -
        (adagradIter p0 g lr epsilon (n + 1)).1| <
      |(adagradIter p0 g lr epsilon (n + 1)).1 -
        (adagradIter p0 g lr epsilon n).1| := by
  have hg2 : 0 < g ^ 2 := by positivity
  constructor
  · rw [adagradIter_gsum, adagradIter_gsum]
    push_cast
    nlinarith
  · rw [show n + 2 = (n + 1) + 1 from rfl, adagradIter_param_succ,
      adagradIter_param_succ, sub_sub_cancel_left, sub_sub_cancel_left,
      abs_neg, abs_neg, abs_div, abs_div]
    have hA : 0 < ((n : ℝ) + 1) * g ^ 2 + epsilon := by
      have h0 : (0 : ℝ) ≤ ((n : ℝ) + 1) * g ^ 2 := by positivity
      linarith
    have hAB : ((n : ℝ) + 1) * g ^ 2 + epsilon <
        ((↑(n + 1) : ℝ) + 1) * g ^ 2 + epsilon := by
      push_cast
      nlinarith
    have hsA : 0 < Real.sqrt (((n : ℝ) + 1) * g ^ 2 + epsilon) :=
      Real.sqrt_pos.mpr hA
    have hsAB : Real.sqrt (((n : ℝ) + 1) * g ^ 2 + epsilon) <
        Real.sqrt (((↑(n + 1) : ℝ) + 1) * g ^ 2 + epsilon) :=
      Real.sqrt_lt_sqrt (le_of_lt hA) hAB
    have hnum : 0 < |lr * g| := abs_pos.mpr (mul_ne_zero hlr hg)
    rw [abs_of_nonneg (Real.sqrt_nonneg _), abs_of_nonneg (Real.sqrt_nonneg _)]
    exact div_lt_div_of_pos_left hnum hsA hsAB

/-- Witness for C9 at a concrete input. -/
theorem adagrad_step_size_decreases_witness :
    (adagradIter 0 1 1 1 0).2 < (adagradIter 0 1 1 1 1).2
    ∧ |(adagradIter 0 1 1 1 2).1 - (adagradIter 0 1 1 1 1).1| <
      |(adagradIter 0 1 1 1 1).1 - (adagradIter 0 1 1 1 0).1| :=
  adagrad_step_size_decreases 0 1 1 1 0 (by norm_num) (by norm_num)
    (by norm_num)

/-- C10: with an empty parameter list, `sgd`, `sgdmomentum`, `adagrad` and
`adadelta` return an empty update list, but `adam` still returns the single
update assigning `t + 1` to its counter, which therefore advances even with
nothing to update. -/
theorem empty_parameter_list
    (lr1 lr2 momentum lr3 eps3 rho eps4 t lr5 beta1 beta2 eps5 : ℝ)
    (h0 : 0 ≤ momentum) (h1 : momentum < 1) :
    sgd [] [] lr1 = []
    ∧ sgdmomentum [] [] [] lr2 momentum = Except.ok []
    ∧ adagrad [] [] [] lr3 eps3 = []
    ∧ adadelta [] [] [] [] rho eps4 = []
    ∧ adam [] [] [] [] t lr5 beta1 beta2 eps5 =
        [(Target.tCounter, t + 1)] := by
  refine ⟨rfl, ?_, rfl, rfl, rfl⟩
  rw [sgdmomentum, if_pos ⟨h0, h1⟩]
  rfl

/-- Witness for C10 at a concrete input. -/
theorem empty_parameter_list_witness :
    sgd [] [] 3 = []
    ∧ sgdmomentum [] [] [] 5 (1 / 2) = Except.ok []
    ∧ adagrad [] [] [] 7 11 = []
    ∧ adadelta [] [] [] [] 13 17 = []
    ∧ adam [] [] [] [] 9 19 21 23 27 = [(Target.tCounter, 9 + 1)] :=
  empty_parameter_list 3 5 (1 / 2) 7 11 13 17 9 19 21 23 27
    (by norm_num) (by norm_num)

/-- C3: when the gradient count differs from the parameter count or some
gradient's shape disagrees with its parameter's shape, `step` fails with
`ShapeMismatchError` and returns the parameter list untouched — no parameter
or auxiliary state is mutated. -/
theorem step_shape_mismatch (lr : ℝ) (params gradients : List Tensor)
    (h : gradients.length ≠ params.length
      ∨ ∃ i, ∃ hp : i < params.length, ∃ hg : i < gradients.length,
          params[i].shape ≠ gradients[i].shape) :
    step lr params gradients =
      (Except.error StepError.shapeMismatch, params) := by
  rw [step, if_neg]
  rintro ⟨hlen, hall⟩
  rcases h with h | ⟨i, hp, hg, hne⟩
  · exact h hlen
  · have hzi : i < (params.zip gradients).length := by
      rw [List.length_zip]; omega
    have hmem : (params[i], gradients[i]) ∈ params.zip gradients := by
      have := List.getElem_mem hzi
      rwa [List.getElem_zip] at this
    exact hne (hall (params[i], gradients[i]) hmem)

/-- Witness for C3: a gradient list one element shorter than the parameter
list fails with the shape-mismatch error and leaves the parameters as they
were. -/
theorem step_shape_mismatch_witness :
    step 3 [⟨[2], [0, 0]⟩, ⟨[2], [0, 0]⟩] [⟨[2], [0, 0]⟩] =
      (Except.error StepError.shapeMismatch,
        [⟨[2], [0, 0]⟩, ⟨[2], [0, 0]⟩]) :=
  step_shape_mismatch 3 [⟨[2], [0, 0]⟩, ⟨[2], [0, 0]⟩] [⟨[2], [0, 0]⟩]
    (Or.inl (by decide))

/-- C4 counterexample: `adadelta` called with `rho = 2` (outside `[0,1)`) and
`epsilon = 0` (non-positive) does not fail: the source checks no
hyperparameter outside `sgdmomentum`'s momentum assert, so construction
returns the ordinary update list. -/
theorem adadelta_accepts_bad_hyperparameters :
    adadelta [1] [1] [0] [0] 2 0 =
      [(Target.accuGradient 0, 2 * 0 + (1 - 2) * 1 ^ 2),
       (Target.accuDelta 0, 2 * 0 + (1 - 2) *
         (- Real.sqrt ((0 + 0) / (2 * 0 + (1 - 2) * 1 ^ 2 + 0)) * 1) ^ 2),
       (Target.param 0,
         1 + - Real.sqrt ((0 + 0) / (2 * 0 + (1 - 2) * 1 ^ 2 + 0)) * 1)] :=
  rfl

/-- C4 (amended): construction validates only the momentum coefficient —
`sgdmomentum`'s `assert 0 <= momentum < 1` fails for any momentum outside
`[0,1)`, in particular momentum = 1.0 and momentum = -0.1; epsilon and the
decay rates rho, beta1, beta2 are never validated. -/
theorem sgdmomentum_rejects_bad_momentum
    (params gradients velocities : List ℝ) (lr momentum : ℝ)
    (h : momentum < 0 ∨ 1 ≤ momentum) :
    sgdmomentum params gradients velocities lr momentum =
      Except.error OptError.invalidHyperparameter := by
  rw [sgdmomentum, if_neg]
  rintro ⟨h0, h1⟩
  rcases h with h | h <;> linarith

/-- Witness for the amended C4 at momentum = 1. -/
theorem sgdmomentum_rejects_bad_momentum_witness :
    sgdmomentum [] [] [] 0 1 = Except.error OptError.invalidHyperparameter :=
  sgdmomentum_rejects_bad_momentum [] [] [] 0 1 (Or.inr le_rfl)

end LearningMethod
